import Mathlib

/-!
Shallow embedding of the model-selection / cost-optimization logic
(`src/lib/model-providers.ts`, the `ModelOptimizer` module), the task
scheduler (`src/lib/task-scheduler.ts`) and the usage tracker / rate
limiter (the `UsageTracker` module), together with theorems settling the
behavioural claims about them.

Conventions used throughout:
- JavaScript numbers holding per-token costs (decimal cents per 1k tokens)
  are embedded as natural numbers scaled by 1000 (milli-cents); every
  catalog constant is an exact multiple of 0.001 cents, so the scaling is
  exact and order-preserving.  `ℚ` appears only to state the cost formula
  exactly as the spec writes it.
- Timestamps (`Date.getTime()`) are embedded as `Int` epoch milliseconds.
- A JavaScript function that can throw (e.g. `Array.reduce` on an empty
  array with no initial value, or a member access on `undefined`) is
  embedded as an `Option`-returning function, `none` marking the throw.
-/

namespace Alqemist

/-- Provider enum of `ModelInfo.provider` in `model-providers.ts`. -/
inductive Provider where
  | openai | anthropic | google | mistral | cohere | openrouter
  deriving DecidableEq, Repr

/-- Category enum of `ModelInfo.category`. -/
inductive Category where
  | chat | vision | code | reasoning | embedding
  deriving DecidableEq, Repr

/-- Feature flags of `ModelInfo.features`. -/
inductive Feature where
  | vision | json | functionCalling | streaming | reasoning
  deriving DecidableEq, Repr

/-- Subscription tiers, ordered free < starter < professional < enterprise. -/
inductive Tier where
  | free | starter | professional | enterprise
  deriving DecidableEq, Repr

/-- Index of a tier in `tierHierarchy = ['free','starter','professional','enterprise']`
(the `indexOf` used by `getModelsForTier` and `getNextTier`). -/
def tierIndex : Tier → Nat
  | .free => 0
  | .starter => 1
  | .professional => 2
  | .enterprise => 3

/-- `costPer1kTokens` record.  The source stores cents per 1000 tokens as
decimal literals (e.g. `0.15`); every catalog value is an exact multiple
of 0.001 cents, so we store the cost scaled by 1000 (milli-cents per 1k
tokens) as a natural number — `input = 150` embeds the source literal
`0.15`.  The scaling is order- and sum-preserving, so every comparison the
optimizer makes is unchanged; `inputCostCents`/`outputCostCents` recover
the exact rational the source literal denotes. -/
structure CostPer1k where
  input : Nat
  output : Nat
  deriving DecidableEq, Repr

/-- One catalog entry (`ModelInfo` in `model-providers.ts`).  The
display-only `description` string is omitted; `deprecated` is optional in
the source and absent (hence falsy) on every catalog entry, embedded as a
`Bool` that is `false` throughout. -/
structure ModelInfo where
  id : String
  name : String
  provider : Provider
  category : Category
  contextLength : Nat
  costPer1kTokens : CostPer1k
  features : List Feature
  maxOutputTokens : Option Nat
  deprecated : Bool
  tier : Tier
  deriving DecidableEq, Repr

def gpt_4o : ModelInfo :=
  { id := "gpt-4o", name := "GPT-4o", provider := .openai, category := .chat,
    contextLength := 128000, costPer1kTokens := { input := 2500, output := 10000 },
    features := [.vision, .json, .functionCalling, .streaming],
    maxOutputTokens := some 4096, deprecated := false, tier := .professional }

def gpt_4o_mini : ModelInfo :=
  { id := "gpt-4o-mini", name := "GPT-4o Mini", provider := .openai, category := .chat,
    contextLength := 128000, costPer1kTokens := { input := 150, output := 600 },
    features := [.vision, .json, .functionCalling, .streaming],
    maxOutputTokens := some 16384, deprecated := false, tier := .starter }

def gpt_35_turbo : ModelInfo :=
  { id := "gpt-3.5-turbo", name := "GPT-3.5 Turbo", provider := .openai, category := .chat,
    contextLength := 16385, costPer1kTokens := { input := 500, output := 1500 },
    features := [.json, .functionCalling, .streaming],
    maxOutputTokens := some 4096, deprecated := false, tier := .starter }

def o1_preview : ModelInfo :=
  { id := "o1-preview", name := "GPT-o1 Preview", provider := .openai, category := .reasoning,
    contextLength := 128000, costPer1kTokens := { input := 15000, output := 60000 },
    features := [.reasoning, .streaming],
    maxOutputTokens := some 32768, deprecated := false, tier := .enterprise }

def claude_35_sonnet : ModelInfo :=
  { id := "claude-3-5-sonnet-20241022", name := "Claude 3.5 Sonnet", provider := .anthropic,
    category := .chat, contextLength := 200000, costPer1kTokens := { input := 3000, output := 15000 },
    features := [.vision, .json, .functionCalling, .streaming],
    maxOutputTokens := some 8192, deprecated := false, tier := .professional }

def claude_3_haiku : ModelInfo :=
  { id := "claude-3-haiku-20240307", name := "Claude 3 Haiku", provider := .anthropic,
    category := .chat, contextLength := 200000, costPer1kTokens := { input := 250, output := 1250 },
    features := [.json, .streaming],
    maxOutputTokens := some 4096, deprecated := false, tier := .starter }

def gemini_15_pro : ModelInfo :=
  { id := "gemini-1.5-pro", name := "Gemini 1.5 Pro", provider := .google, category := .chat,
    contextLength := 2000000, costPer1kTokens := { input := 1250, output := 5000 },
    features := [.vision, .json, .functionCalling, .streaming],
    maxOutputTokens := some 8192, deprecated := false, tier := .professional }

def gemini_15_flash : ModelInfo :=
  { id := "gemini-1.5-flash", name := "Gemini 1.5 Flash", provider := .google, category := .chat,
    contextLength := 1000000, costPer1kTokens := { input := 75, output := 300 },
    features := [.vision, .json, .functionCalling, .streaming],
    maxOutputTokens := some 8192, deprecated := false, tier := .starter }

def claude_3_opus_or : ModelInfo :=
  { id := "anthropic/claude-3-opus:beta", name := "Claude 3 Opus (OpenRouter)",
    provider := .openrouter, category := .reasoning, contextLength := 200000,
    costPer1kTokens := { input := 15000, output := 75000 },
    features := [.vision, .json, .reasoning, .streaming],
    maxOutputTokens := some 4096, deprecated := false, tier := .enterprise }

def llama_32_90b_vision : ModelInfo :=
  { id := "meta-llama/llama-3.2-90b-vision-instruct", name := "Llama 3.2 90B Vision",
    provider := .openrouter, category := .vision, contextLength := 131072,
    costPer1kTokens := { input := 900, output := 900 },
    features := [.vision, .json, .streaming],
    maxOutputTokens := some 8192, deprecated := false, tier := .starter }

/-- `AVAILABLE_MODELS`: the static model catalog, in source order (the
commented-out mistral/cohere entries of the source are not part of the
live catalog). -/
def AVAILABLE_MODELS : List ModelInfo :=
  [gpt_4o, gpt_4o_mini, gpt_35_turbo, o1_preview,
   claude_35_sonnet, claude_3_haiku,
   gemini_15_pro, gemini_15_flash,
   claude_3_opus_or, llama_32_90b_vision]

/-- `getModelsForTier`: catalog entries whose tier index is at most the
requested tier's index and that are not deprecated. -/
def getModelsForTier (tier : Tier) : List ModelInfo :=
  AVAILABLE_MODELS.filter fun model =>
    decide (tierIndex model.tier ≤ tierIndex tier) && !model.deprecated

/-- A model's per-1k-token input cost in cents: the exact rational the
source's `costPer1kTokens.input` literal denotes. -/
def inputCostCents (m : ModelInfo) : ℚ := (m.costPer1kTokens.input : ℚ) / 1000

/-- A model's per-1k-token output cost in cents. -/
def outputCostCents (m : ModelInfo) : ℚ := (m.costPer1kTokens.output : ℚ) / 1000

/-- `estimateConversationCost`: looks the model up by id; an unknown id
costs 0; otherwise `Math.ceil(inputTokens/1000 * inputCost +
outputTokens/1000 * outputCost)` cents.  In milli-cent scaling the exact
value under the ceiling is `(inputTokens·input + outputTokens·output) /
10^6` cents, and the ceiling of that nonnegative rational is the natural
number `(numerator + 10^6 - 1) / 10^6`; `estimateConversationCost_eq_ceil`
proves this agrees with the source formula. -/
def estimateConversationCost (modelId : String) (inputTokens outputTokens : Nat) : Nat :=
  match AVAILABLE_MODELS.find? (fun m => m.id == modelId) with
  | none => 0
  | some model =>
      (inputTokens * model.costPer1kTokens.input
        + outputTokens * model.costPer1kTokens.output + 999999) / 1000000

/-! ### ModelOptimizer (`recommendForInput` and its helpers) -/

/-- Whether the first character list is a leading segment of the second. -/
def charsLeadingSegment : List Char → List Char → Bool
  | [], _ => true
  | _ :: _, [] => false
  | a :: as, b :: bs => a == b && charsLeadingSegment as bs

/-- Whether the first character list occurs contiguously in the second. -/
def charsContiguousIn (sub : List Char) : List Char → Bool
  | [] => charsLeadingSegment sub []
  | b :: bs => charsLeadingSegment sub (b :: bs) || charsContiguousIn sub bs

/-- JavaScript `String.prototype.includes`: substring containment
(case-sensitive). -/
def strIncludes (s sub : String) : Bool :=
  charsContiguousIn sub.data s.data

/-- JavaScript `String.prototype.toLowerCase` (character-wise lowering). -/
def strToLower (s : String) : String :=
  ⟨s.data.map Char.toLower⟩

/-- The required-feature set computed at the top of `recommendForInput`:
`vision` when attachments are present, `reasoning` when the lowercased
input contains "analyze" or "think".  (The source also tests for
"code"/"function" but the branch body is empty, so it adds nothing.) -/
def requiredFeaturesFor (inputText : String) (hasAttachments : Bool) : List Feature :=
  (if hasAttachments then [Feature.vision] else [])
    ++ (if strIncludes (strToLower inputText) "analyze"
          || strIncludes (strToLower inputText) "think"
        then [Feature.reasoning] else [])

/-- `requiredFeatures.every(feature => m.features.includes(feature))`. -/
def featureCompatible (requiredFeatures : List Feature) (m : ModelInfo) : Bool :=
  requiredFeatures.all fun f => decide (f ∈ m.features)

/-- input + output cost per 1k tokens (in milli-cents), the quantity every
cost comparison in the optimizer uses; the 1000-scaling preserves every
comparison. -/
def totalCost (m : ModelInfo) : Nat :=
  m.costPer1kTokens.input + m.costPer1kTokens.output

/-- The `reduce` callback of `findCheapestModel`:
`currentCost < cheapestCost ? current : cheapest`. -/
def cheaperOf (cheapest current : ModelInfo) : ModelInfo :=
  if totalCost current < totalCost cheapest then current else cheapest

/-- `findCheapestModel`: filters to feature-compatible models, then
`compatible.reduce(cheaperOf)`.  `Array.reduce` with no initial value
throws on an empty array, embedded as `none`; on a non-empty array it
folds from the first element. -/
def findCheapestModel (models : List ModelInfo) (requiredFeatures : List Feature) :
    Option ModelInfo :=
  match models.filter (featureCompatible requiredFeatures) with
  | [] => none
  | first :: rest => some (rest.foldl cheaperOf first)

/-- `findFastestModel`: first compatible model whose name contains "mini"
or "flash", else the first openai one, else `compatible[0]` (which is
`undefined`, i.e. `none`, when the compatible list is empty). -/
def findFastestModel (models : List ModelInfo) (requiredFeatures : List Feature) :
    Option ModelInfo :=
  let compatible := models.filter (featureCompatible requiredFeatures)
  (compatible.find? fun m => strIncludes m.name "mini" || strIncludes m.name "flash")
    <|> (compatible.find? fun m => decide (m.provider = .openai))
    <|> compatible.head?

/-- `findHighestQualityModel`: reasoning category, else an "Opus"/"GPT-4o"
name, else an enterprise-tier model, else `compatible[0]`. -/
def findHighestQualityModel (models : List ModelInfo) (requiredFeatures : List Feature) :
    Option ModelInfo :=
  let compatible := models.filter (featureCompatible requiredFeatures)
  (compatible.find? fun m => decide (m.category = .reasoning))
    <|> (compatible.find? fun m => strIncludes m.name "Opus" || strIncludes m.name "GPT-4o")
    <|> (compatible.find? fun m => decide (m.tier = .enterprise))
    <|> compatible.head?

/-- `findBalancedModel`: cheapest for short inputs (< 500 chars), highest
quality for long inputs (> 5000 chars), otherwise a professional-tier
non-"mini" non-"Opus" model, else `compatible[0]`. -/
def findBalancedModel (models : List ModelInfo) (requiredFeatures : List Feature)
    (inputLength : Nat) : Option ModelInfo :=
  let compatible := models.filter (featureCompatible requiredFeatures)
  if inputLength < 500 then
    findCheapestModel compatible requiredFeatures
  else if inputLength > 5000 then
    findHighestQualityModel compatible requiredFeatures
  else
    (compatible.find? fun m =>
        !strIncludes m.name "mini" && !strIncludes m.name "Opus"
          && decide (m.tier = .professional))
      <|> compatible.head?

/-- Insert `a` into an already sorted list, before the first element `b`
with `le a b`.  With a reflexive `le` this keeps `a` after earlier equal
elements, so `stableSortBy` is a stable sort. -/
def insertSortedBy (le : α → α → Bool) (a : α) : List α → List α
  | [] => [a]
  | b :: bs => if le a b then a :: b :: bs else b :: insertSortedBy le a bs

/-- Stable insertion sort: the embedding of JavaScript
`Array.prototype.sort`, which the language specification requires to be
stable.  For a consistent comparator (ours is the lexicographic
provider-diversity-then-cost preorder) a stable sort's output is unique,
so the choice of stable algorithm is immaterial. -/
def stableSortBy (le : α → α → Bool) : List α → List α
  | [] => []
  | a :: as => insertSortedBy le a (stableSortBy le as)

/-- The comparator of `generateFallbacks`' `.sort`: models from a provider
other than the primary's sort first, then ascending total cost.
(`le a b` embeds `comparator(a, b) <= 0`.) -/
def fallbackLe (primary a b : ModelInfo) : Bool :=
  if a.provider ≠ primary.provider ∧ b.provider = primary.provider then true
  else if a.provider = primary.provider ∧ b.provider ≠ primary.provider then false
  else totalCost a ≤ totalCost b

/-- `generateFallbacks`: compatible models other than the primary, sorted
by the provider-diversity/cost comparator, truncated to the top 3. -/
def generateFallbacks (primary : ModelInfo) (available : List ModelInfo)
    (requiredFeatures : List Feature) : List ModelInfo :=
  (stableSortBy (fallbackLe primary)
    (available.filter fun m =>
      decide (m.id ≠ primary.id) && featureCompatible requiredFeatures m)).take 3

inductive Strategy where
  | cost | speed | quality | balanced
  deriving DecidableEq, Repr

/-- `OptimizationStrategy` (the `maxCostPerConversation` and
`prioritizeFeatures` fields are never read by the optimizer). -/
structure OptimizationStrategy where
  strategy : Strategy
  maxCostPerConversation : Option Int
  prioritizeFeatures : List Feature
  fallbackEnabled : Option Bool
  deriving DecidableEq, Repr

inductive OutputLength where
  | short | medium | long
  deriving DecidableEq, Repr

/-- `expectedOutputLength === 'short' ? 100 : 'medium' ? 500 : 1500`. -/
def outputTokensOf : OutputLength → Nat
  | .short => 100
  | .medium => 500
  | .long => 1500

structure ModelRecommendation where
  primary : ModelInfo
  fallbacks : List ModelInfo
  estimatedCost : Nat
  reasoning : String
  deriving DecidableEq, Repr

/-- The strategy switch of `recommendForInput`, pairing the chosen primary
model with the reasoning string. -/
def selectPrimary (strat : OptimizationStrategy) (availableModels : List ModelInfo)
    (requiredFeatures : List Feature) (inputLength : Nat) : Option ModelInfo × String :=
  match strat.strategy with
  | .cost =>
      (findCheapestModel availableModels requiredFeatures, "Gekozen voor kostenefficiëntie")
  | .speed =>
      (findFastestModel availableModels requiredFeatures, "Gekozen voor snelheid")
  | .quality =>
      (findHighestQualityModel availableModels requiredFeatures, "Gekozen voor hoogste kwaliteit")
  | .balanced =>
      (findBalancedModel availableModels requiredFeatures inputLength,
       "Gebalanceerde keuze tussen kost, snelheid en kwaliteit")

/-- `ModelOptimizer.recommendForInput`.  `userTier`/`strat` are the
constructor state of the `ModelOptimizer` instance.  When no compatible
model exists the JavaScript throws (empty `reduce` for the cost strategy,
a member access on an `undefined` primary for the others), embedded as
`none`. -/
def recommendForInput (userTier : Tier) (strat : OptimizationStrategy)
    (inputText : String) (hasAttachments : Bool)
    (expectedOutputLength : OutputLength) : Option ModelRecommendation :=
  let availableModels := getModelsForTier userTier
  let inputLength := inputText.length
  let estimatedTokens := (inputLength + 3) / 4  -- Math.ceil(inputLength / 4)
  let requiredFeatures := requiredFeaturesFor inputText hasAttachments
  match selectPrimary strat availableModels requiredFeatures inputLength with
  | (none, _) => none
  | (some primaryModel, reasoning) =>
      some { primary := primaryModel,
             fallbacks := generateFallbacks primaryModel availableModels requiredFeatures,
             estimatedCost := estimateConversationCost primaryModel.id estimatedTokens
                                (outputTokensOf expectedOutputLength),
             reasoning := reasoning }

/-! ### TaskScheduler (`task-scheduler.ts`)

The persistence layer is external: `scheduleTask` is embedded as the list
of rows it inserts (the original row followed by the recurring siblings,
in insertion order), and the `processDueTasks` sweep as the selection its
SQL query performs over a given table state.  Timestamps are epoch
milliseconds (`Date.getTime()`), as `Int`. -/

inductive TaskType where
  | reminder | followup | recurring | suggestion
  deriving DecidableEq, Repr

inductive RecurrencePattern where
  | daily | weekly | monthly | custom
  deriving DecidableEq, Repr

inductive TaskStatus where
  | pending | completed | cancelled | snoozed
  deriving DecidableEq, Repr

inductive TaskPriority where
  | low | medium | high
  deriving DecidableEq, Repr

inductive ReminderKind where
  | deadline | meeting | task | birthday | custom
  deriving DecidableEq, Repr

inductive Channel where
  | email | push | sms
  deriving DecidableEq, Repr

inductive TimeUnit where
  | minutes | hours | days | weeks | months
  deriving DecidableEq, Repr

/-- `metadata.customRecurrence`. -/
structure CustomRecurrence where
  interval : Nat
  unit : TimeUnit
  endDate : Option Int
  maxOccurrences : Option Nat
  deriving DecidableEq, Repr

/-- `ScheduledTask.metadata`. -/
structure TaskMetadata where
  priority : TaskPriority
  category : String
  relatedThreadId : Option String
  reminderKind : Option ReminderKind
  notificationChannels : List Channel
  customRecurrence : Option CustomRecurrence
  deriving DecidableEq, Repr

/-- A `ScheduledTask` (row image; the DB-generated `id`, `createdAt`,
`updatedAt` are omitted). -/
structure ScheduledTask where
  userId : String
  title : String
  description : Option String
  taskType : TaskType
  scheduledFor : Int
  recurrencePattern : Option RecurrencePattern
  status : TaskStatus
  metadata : TaskMetadata
  deriving DecidableEq, Repr

/-- `getRecurrenceInterval` (milliseconds): the switch has cases for
`daily`, `weekly` and `monthly` only; `custom` (and anything else) falls
through to the `default` branch, i.e. 24 hours. -/
def getRecurrenceInterval : RecurrencePattern → Int
  | .daily => 24 * 60 * 60 * 1000
  | .weekly => 7 * 24 * 60 * 60 * 1000
  | .monthly => 30 * 24 * 60 * 60 * 1000
  | .custom => 24 * 60 * 60 * 1000

/-- JavaScript `x || d` on an optional number: `undefined` and `0` are
falsy, so both select the default. -/
def jsOrNat (x : Option Nat) (d : Nat) : Nat :=
  match x with
  | none => d
  | some v => if v = 0 then d else v

/-- The sibling row inserted for one recurring occurrence: same user,
title, description, task type, recurrence pattern and metadata JSON, with
the computed due date and status `'pending'`. -/
def siblingRow (task : ScheduledTask) (nextDate : Int) : ScheduledTask :=
  { task with scheduledFor := nextDate, status := .pending }

/-- The loop's `break` condition,
`task.metadata.customRecurrence?.endDate && nextDate >
task.metadata.customRecurrence.endDate` (a `Date` object is always
truthy, so the condition holds exactly when an end date exists and
`nextDate` exceeds it). -/
def recurrenceBreak (task : ScheduledTask) (nextDate : Int) : Bool :=
  match task.metadata.customRecurrence with
  | some cr =>
      match cr.endDate with
      | some ed => decide (nextDate > ed)
      | none => false
  | none => false

/-- The `for (let i = 1; i < maxOccurrences; i++)` loop body of
`scheduleRecurringTasks`, over the remaining values of `i`: computes
`nextDate`, `break`s on `recurrenceBreak`, otherwise inserts the sibling
row and continues. -/
def recurrenceLoop (task : ScheduledTask) (interval : Int) : List Nat → List ScheduledTask
  | [] => []
  | i :: rest =>
      let nextDate := task.scheduledFor + interval * i
      if recurrenceBreak task nextDate then []
      else siblingRow task nextDate :: recurrenceLoop task interval rest

/-- `scheduleRecurringTasks`: `maxOccurrences` defaults to 10 via `||`
(so an explicit 0 also yields 10), the interval comes from
`getRecurrenceInterval`, and the loop counter `i` runs over
`1, …, maxOccurrences - 1`. -/
def scheduleRecurringTasks (task : ScheduledTask) (p : RecurrencePattern) :
    List ScheduledTask :=
  recurrenceLoop task (getRecurrenceInterval p)
    (List.range' 1 (jsOrNat (task.metadata.customRecurrence.bind (·.maxOccurrences)) 10 - 1))

/-- `scheduleTask`: inserts the task row itself, then — when a recurrence
pattern is set — the rows of `scheduleRecurringTasks`.  The value is the
full list of rows inserted, in insertion order. -/
def scheduleTask (task : ScheduledTask) : List ScheduledTask :=
  task :: match task.recurrencePattern with
          | some p => scheduleRecurringTasks task p
          | none => []

/-- `snoozeTask`: due time set to now + snoozeMinutes (source default 60),
status set to `'snoozed'`. -/
def snoozeTask (task : ScheduledTask) (nowMs : Int) (snoozeMinutes : Int) : ScheduledTask :=
  { task with scheduledFor := nowMs + snoozeMinutes * 60 * 1000, status := .snoozed }

/-- `completeTask`'s row update: status set to `'completed'`. -/
def completeTaskRow (task : ScheduledTask) : ScheduledTask :=
  { task with status := .completed }

/-- `cancelTask`'s row update: status set to `'cancelled'`. -/
def cancelTaskRow (task : ScheduledTask) : ScheduledTask :=
  { task with status := .cancelled }

/-- The selection of the `processDueTasks` sweep:
`WHERE status = 'pending' AND scheduled_for <= NOW() ORDER BY
scheduled_for ASC` over the current table state.  (SQL leaves the order of
equal keys unspecified; a stable sort is one valid refinement.) -/
def processDueTasksSelection (tasks : List ScheduledTask) (nowMs : Int) :
    List ScheduledTask :=
  stableSortBy (fun a b => decide (a.scheduledFor ≤ b.scheduledFor))
    (tasks.filter fun t => decide (t.status = .pending) && decide (t.scheduledFor ≤ nowMs))

/-! ### UsageTracker (rate limiter)

`getCurrentUsage` runs a SQL `SUM(quantity) … GROUP BY type` over the
user's current-month `usage_events` rows and folds the grouped rows into a
usage record; summing the rows directly is the same total.  The embedding
takes the list of the user's current-month events as input. -/

inductive UsageEventType where
  | api_call | token_usage | file_upload | attachment_processing | tool_execution
  deriving DecidableEq, Repr

/-- One `usage_events` row (owner and timestamp are externalized: the
event list passed around is already the current user's current-month
slice). -/
structure UsageEvent where
  eventType : UsageEventType
  resource : String
  quantity : Nat
  cost : Nat
  deriving DecidableEq, Repr

/-- Per-tier quota record; `-1` is the "unlimited" sentinel, hence `Int`. -/
structure UsageLimits where
  apiCalls : Int
  tokens : Int
  storage : Int
  toolExecutions : Int
  deriving DecidableEq, Repr

inductive BillingInterval where
  | month | year
  deriving DecidableEq, Repr

structure SubscriptionTier where
  id : String
  name : String
  limits : UsageLimits
  price : Nat
  interval : BillingInterval
  deriving DecidableEq, Repr

def starterTier : SubscriptionTier :=
  { id := "starter", name := "Starter",
    limits := { apiCalls := 10000, tokens := 1000000,
                storage := 1 * 1024 * 1024 * 1024, toolExecutions := 100 },
    price := 999, interval := .month }

def professionalTier : SubscriptionTier :=
  { id := "professional", name := "Professional",
    limits := { apiCalls := 100000, tokens := 10000000,
                storage := 10 * 1024 * 1024 * 1024, toolExecutions := 1000 },
    price := 2999, interval := .month }

def enterpriseTier : SubscriptionTier :=
  { id := "enterprise", name := "Enterprise",
    limits := { apiCalls := -1, tokens := -1,
                storage := 100 * 1024 * 1024 * 1024, toolExecutions := -1 },
    price := 9999, interval := .month }

def SUBSCRIPTION_TIERS : List SubscriptionTier :=
  [starterTier, professionalTier, enterpriseTier]

/-- The usage record `getCurrentUsage` returns. -/
structure Usage where
  apiCalls : Nat
  tokens : Nat
  storage : Nat
  toolExecutions : Nat
  cost : Nat
  deriving DecidableEq, Repr

/-- One step of `getCurrentUsage`'s `forEach` switch: `api_call` feeds
`apiCalls`, `token_usage` feeds `tokens`, `file_upload` and
`attachment_processing` both feed `storage`, `tool_execution` feeds
`toolExecutions`; `cost` accumulates unconditionally. -/
def addUsageEvent (u : Usage) (e : UsageEvent) : Usage :=
  let u' :=
    match e.eventType with
    | .api_call => { u with apiCalls := u.apiCalls + e.quantity }
    | .token_usage => { u with tokens := u.tokens + e.quantity }
    | .file_upload => { u with storage := u.storage + e.quantity }
    | .attachment_processing => { u with storage := u.storage + e.quantity }
    | .tool_execution => { u with toolExecutions := u.toolExecutions + e.quantity }
  { u' with cost := u'.cost + e.cost }

/-- `getCurrentUsage` over the user's current-month events. -/
def getCurrentUsage (events : List UsageEvent) : Usage :=
  events.foldl addUsageEvent
    { apiCalls := 0, tokens := 0, storage := 0, toolExecutions := 0, cost := 0 }

structure CheckLimitsResult where
  withinLimits : Bool
  usage : Usage
  limits : UsageLimits
  tier : SubscriptionTier
  deriving DecidableEq, Repr

/-- `checkLimits`: the subscription tier is hardcoded to
`SUBSCRIPTION_TIERS[0]` (starter) pending a real subscription lookup; a
limit of `-1` always passes, otherwise current usage must be `≤` the
limit. -/
def checkLimits (events : List UsageEvent) : CheckLimitsResult :=
  let userTier := starterTier  -- SUBSCRIPTION_TIERS[0]
  let usage := getCurrentUsage events
  let withinLimits :=
    (userTier.limits.apiCalls == -1 || decide ((usage.apiCalls : Int) ≤ userTier.limits.apiCalls))
      && (userTier.limits.tokens == -1 || decide ((usage.tokens : Int) ≤ userTier.limits.tokens))
      && (userTier.limits.storage == -1 || decide ((usage.storage : Int) ≤ userTier.limits.storage))
      && (userTier.limits.toolExecutions == -1
            || decide ((usage.toolExecutions : Int) ≤ userTier.limits.toolExecutions))
  { withinLimits := withinLimits, usage := usage, limits := userTier.limits, tier := userTier }

/-- `new Date(year, month + 1, 1)`: the first of the next month (the
`Date` constructor rolls month 12 over to January of the next year).
Calendar months are 0-based as in JavaScript. -/
def firstOfNextMonth (year month : Int) : Int × Int × Int :=
  if month + 1 ≥ 12 then (year + 1, 0, 1) else (year, month + 1, 1)

/-- The allow/deny decision of `canMakeRequest`. -/
structure RequestDecision where
  allowed : Bool
  reason : Option String
  resetTime : Option (Int × Int × Int)
  deriving DecidableEq, Repr

/-- `canMakeRequest`: denies with the generic monthly message when
`checkLimits` already reports the usage out of bounds; otherwise applies
the kind-specific `usage + quantity > limit` check for `api_call`,
`token_usage` and `tool_execution` (the other kinds have no case in the
switch and are allowed).  Every denial carries the first of the next month
as reset time. -/
def canMakeRequest (eventType : UsageEventType) (quantity : Nat)
    (events : List UsageEvent) (year month : Int) : RequestDecision :=
  let limits := checkLimits events
  if !limits.withinLimits then
    { allowed := false, reason := some "Monthly usage limit exceeded",
      resetTime := some (firstOfNextMonth year month) }
  else
    match eventType with
    | .api_call =>
        if limits.limits.apiCalls != -1
            && decide ((limits.usage.apiCalls + quantity : Int) > limits.limits.apiCalls) then
          { allowed := false, reason := some "API call limit exceeded",
            resetTime := some (firstOfNextMonth year month) }
        else { allowed := true, reason := none, resetTime := none }
    | .token_usage =>
        if limits.limits.tokens != -1
            && decide ((limits.usage.tokens + quantity : Int) > limits.limits.tokens) then
          { allowed := false, reason := some "Token limit exceeded",
            resetTime := some (firstOfNextMonth year month) }
        else { allowed := true, reason := none, resetTime := none }
    | .tool_execution =>
        if limits.limits.toolExecutions != -1
            && decide ((limits.usage.toolExecutions + quantity : Int)
                        > limits.limits.toolExecutions) then
          { allowed := false, reason := some "Tool execution limit exceeded",
            resetTime := some (firstOfNextMonth year month) }
        else { allowed := true, reason := none, resetTime := none }
    | .file_upload => { allowed := true, reason := none, resetTime := none }
    | .attachment_processing => { allowed := true, reason := none, resetTime := none }

/-! ### Helper lemmas -/

theorem mem_insertSortedBy {le : α → α → Bool} {x a : α} {l : List α} :
    x ∈ insertSortedBy le a l ↔ x = a ∨ x ∈ l := by
  induction l with
  | nil => simp [insertSortedBy]
  | cons b bs ih =>
      simp only [insertSortedBy]
      split
      · simp
      · simp only [List.mem_cons, ih]
        tauto

theorem mem_stableSortBy {le : α → α → Bool} {x : α} {l : List α} :
    x ∈ stableSortBy le l ↔ x ∈ l := by
  induction l with
  | nil => simp [stableSortBy]
  | cons a as ih => simp [stableSortBy, mem_insertSortedBy, ih]

/-- Catalog ids are unique, so finding by a member's id returns that
member. -/
theorem find_id_of_mem (m : ModelInfo) (hm : m ∈ AVAILABLE_MODELS) :
    AVAILABLE_MODELS.find? (fun x => x.id == m.id) = some m := by
  fin_cases hm <;> rfl

/-- `Math.ceil` of the exact nonnegative rational `a / b` is the natural
number `(a + (b - 1)) / b`, stated for the denominator `10^6` used by
`estimateConversationCost`. -/
theorem ceilDiv1M_eq_ceil (a : Nat) :
    (((a + 999999) / 1000000 : Nat) : ℤ) = ⌈(a : ℚ) / 1000000⌉ := by
  have hqr := Nat.div_add_mod (a + 999999) 1000000
  have hr : (a + 999999) % 1000000 < 1000000 := Nat.mod_lt _ (by norm_num)
  set q := (a + 999999) / 1000000 with hq
  have h1 : a ≤ q * 1000000 := by omega
  have h2 : q * 1000000 < a + 1000000 := by omega
  rw [eq_comm, Int.ceil_eq_iff]
  constructor
  · rw [lt_div_iff₀ (by norm_num : (0:ℚ) < 1000000)]
    have : (q : ℚ) * 1000000 < (a : ℚ) + 1000000 := by exact_mod_cast h2
    push_cast
    linarith
  · rw [div_le_iff₀ (by norm_num : (0:ℚ) < 1000000)]
    have : (a : ℚ) ≤ (q : ℚ) * 1000000 := by exact_mod_cast h1
    push_cast
    linarith

/-! ### Claims -/

/-- C2: for all tiers `T1 ≤ T2` in the ordered sequence free < starter <
professional < enterprise, every model returned by `getModelsForTier T1`
is also returned by `getModelsForTier T2`. -/
theorem tier_monotonicity (t1 t2 : Tier) (h : tierIndex t1 ≤ tierIndex t2) :
    ∀ m ∈ getModelsForTier t1, m ∈ getModelsForTier t2 := by
  intro m hm
  simp only [getModelsForTier, List.mem_filter, Bool.and_eq_true, decide_eq_true_eq] at hm ⊢
  exact ⟨hm.1, le_trans hm.2.1 h, hm.2.2⟩

/-- C2 witness: starter ≤ professional, and a starter model is available
at the professional tier. -/
theorem tier_monotonicity_witness :
    tierIndex .starter ≤ tierIndex .professional
      ∧ gpt_4o_mini ∈ getModelsForTier .professional :=
  ⟨by decide,
   tier_monotonicity .starter .professional (by decide) gpt_4o_mini (by decide)⟩

/-- C4: for every catalog model and all token counts,
`estimateConversationCost` equals the ceiling of
`inputTokens/1000 × per-1k input cost + outputTokens/1000 × per-1k output
cost` (costs in cents); in particular the 0.15¢/0.6¢ model (gpt-4o-mini)
with 1000 input and 500 output tokens costs `⌈0.45⌉ = 1` cent. -/
theorem estimateConversationCost_eq_ceil :
    (∀ m ∈ AVAILABLE_MODELS, ∀ inputTokens outputTokens : Nat,
      (estimateConversationCost m.id inputTokens outputTokens : ℤ)
        = ⌈(inputTokens : ℚ) / 1000 * inputCostCents m
            + (outputTokens : ℚ) / 1000 * outputCostCents m⌉)
    ∧ estimateConversationCost "gpt-4o-mini" 1000 500 = 1 := by
  constructor
  · intro m hm i o
    unfold estimateConversationCost
    rw [find_id_of_mem m hm]
    have harg : ((i * m.costPer1kTokens.input + o * m.costPer1kTokens.output : Nat) : ℚ)
          / 1000000
        = (i : ℚ) / 1000 * inputCostCents m + (o : ℚ) / 1000 * outputCostCents m := by
      unfold inputCostCents outputCostCents
      push_cast
      ring
    rw [← harg]
    exact ceilDiv1M_eq_ceil (i * m.costPer1kTokens.input + o * m.costPer1kTokens.output)
  · decide

/-- C4 witness: the general equation applied to gpt-4o at 2000 input /
1000 output tokens. -/
theorem estimateConversationCost_eq_ceil_witness :
    (estimateConversationCost gpt_4o.id 2000 1000 : ℤ)
      = ⌈(2000 : ℚ) / 1000 * inputCostCents gpt_4o
          + (1000 : ℚ) / 1000 * outputCostCents gpt_4o⌉ :=
  estimateConversationCost_eq_ceil.1 gpt_4o (by decide) 2000 1000

/-- C10: an unknown model id is silently costed as zero for all token
counts. -/
theorem unknown_model_costs_zero (modelId : String)
    (h : ∀ m ∈ AVAILABLE_MODELS, m.id ≠ modelId) (inputTokens outputTokens : Nat) :
    estimateConversationCost modelId inputTokens outputTokens = 0 := by
  unfold estimateConversationCost
  rw [List.find?_eq_none.mpr]
  intro m hm
  simpa using h m hm

/-- C10 witness: a concrete id absent from the catalog. -/
theorem unknown_model_costs_zero_witness :
    estimateConversationCost "o3" 1234 567 = 0 :=
  unknown_model_costs_zero "o3" (by decide) 1234 567

/-- C9: a starter-tier user whose current-month api_call usage is exactly
the 10000 limit (and whose other usage is within bounds) is denied
`canMakeRequest('api_call', 1)` with the kind-specific reason and the
first of the next month as reset time: `checkLimits` still passes at
`usage = limit` (`<=`), but the kind-specific check `usage + 1 > limit`
denies. -/
theorem quota_boundary_denied (events : List UsageEvent) (year month : Int)
    (hApi : (getCurrentUsage events).apiCalls = 10000)
    (hTok : (getCurrentUsage events).tokens ≤ 1000000)
    (hSto : (getCurrentUsage events).storage ≤ 1073741824)
    (hTool : (getCurrentUsage events).toolExecutions ≤ 100) :
    canMakeRequest .api_call 1 events year month
      = { allowed := false, reason := some "API call limit exceeded",
          resetTime := some (firstOfNextMonth year month) } := by
  unfold canMakeRequest checkLimits
  simp only [starterTier, hApi]
  norm_num
  omega

/-- C9 witness: one api_call event of quantity 10000 in December 2025; the
reset time rolls over to January 1, 2026 (months 0-based). -/
theorem quota_boundary_denied_witness :
    canMakeRequest .api_call 1
        [{ eventType := .api_call, resource := "chat", quantity := 10000, cost := 0 }]
        2025 11
      = { allowed := false, reason := some "API call limit exceeded",
          resetTime := some (2026, 0, 1) } :=
  (quota_boundary_denied
      [{ eventType := .api_call, resource := "chat", quantity := 10000, cost := 0 }]
      2025 11 (by decide) (by decide) (by decide) (by decide)).trans (by decide)

/-! ### Scheduler lemmas and claims -/

theorem recurrenceLoop_length_le (task : ScheduledTask) (interval : Int) :
    ∀ l : List Nat, (recurrenceLoop task interval l).length ≤ l.length := by
  intro l
  induction l with
  | nil => simp [recurrenceLoop]
  | cons i rest ih =>
      simp only [recurrenceLoop]
      split
      · simp
      · simpa using ih

theorem recurrenceLoop_mem_shape (task : ScheduledTask) (interval : Int) :
    ∀ (l : List Nat) (r : ScheduledTask), r ∈ recurrenceLoop task interval l →
      ∃ d, r = siblingRow task d := by
  intro l
  induction l with
  | nil => simp [recurrenceLoop]
  | cons i rest ih =>
      intro r hr
      simp only [recurrenceLoop] at hr
      split at hr
      · simp at hr
      · rcases List.mem_cons.mp hr with h | h
        · exact ⟨_, h⟩
        · exact ih r h

theorem recurrenceLoop_endDate_bound (task : ScheduledTask) (interval : Int)
    (cr : CustomRecurrence) (ed : Int) (hcr : task.metadata.customRecurrence = some cr)
    (hed : cr.endDate = some ed) :
    ∀ (l : List Nat) (r : ScheduledTask), r ∈ recurrenceLoop task interval l →
      r.scheduledFor ≤ ed := by
  intro l
  induction l with
  | nil => simp [recurrenceLoop]
  | cons i rest ih =>
      intro r hr
      simp only [recurrenceLoop] at hr
      by_cases hb : recurrenceBreak task (task.scheduledFor + interval * i) = true
      · rw [if_pos hb] at hr
        simp at hr
      · rw [if_neg hb] at hr
        rcases List.mem_cons.mp hr with h | h
        · subst h
          simp only [recurrenceBreak, hcr, hed, decide_eq_true_eq] at hb
          simpa [siblingRow] using le_of_not_lt hb
        · exact ih r h

theorem recurrenceLoop_due_time (task : ScheduledTask) (interval : Int) :
    ∀ (n s i : Nat) (r : ScheduledTask),
      (recurrenceLoop task interval (List.range' s n))[i]? = some r →
      r.scheduledFor = task.scheduledFor + interval * (s + i : Nat) := by
  intro n
  induction n with
  | zero => intro s i r hr; simp [recurrenceLoop] at hr
  | succ n ih =>
      intro s i r hr
      rw [List.range'_succ] at hr
      simp only [recurrenceLoop] at hr
      split at hr
      · simp at hr
      · cases i with
        | zero =>
            simp only [List.getElem?_cons_zero, Option.some_inj] at hr
            subst hr
            simp [siblingRow]
        | succ j =>
            simp only [List.getElem?_cons_succ] at hr
            have := ih (s + 1) j r hr
            rw [this]
            congr 1
            have : ((s + 1 + j : Nat) : Int) = ((s + (j + 1) : Nat) : Int) := by
              push_cast; ring
            rw [this]

/-- A recurring daily task whose caller sets `maxOccurrences = 0`: the
JavaScript `||` treats 0 as unset and substitutes the default 10. -/
def taskMaxZero : ScheduledTask :=
  { userId := "u1", title := "standup", description := none, taskType := .recurring,
    scheduledFor := 0, recurrencePattern := some .daily, status := .pending,
    metadata := { priority := .medium, category := "work", relatedThreadId := none,
                  reminderKind := none, notificationChannels := [.push],
                  customRecurrence := some { interval := 1, unit := .days,
                                             endDate := none, maxOccurrences := some 0 } } }

/-- C6 counterexample: with `maxOccurrences = 0` the claim's bound "at
most N = 0 total rows" fails — `scheduleTask` inserts 10 rows (the `||`
default), so the bound does not hold at N = 0. -/
theorem scheduleTask_bound_fails_at_zero :
    (scheduleTask taskMaxZero).length = 10 ∧ ¬((scheduleTask taskMaxZero).length ≤ 0) := by
  constructor
  · decide
  · decide

/-- C6 (amended to `N ≥ 1`, which the `|| 10` default forces): a task with
a recurrence pattern and `customRecurrence.maxOccurrences = N ≥ 1`
produces at most N rows in total (original included), every row shares the
original's title and metadata, and when an end date is set every generated
sibling is due on or before it. -/
theorem scheduleTask_occurrence_bound (task : ScheduledTask) (cr : CustomRecurrence)
    (N : Nat) (hcr : task.metadata.customRecurrence = some cr)
    (hN : cr.maxOccurrences = some N) (hpos : 1 ≤ N) :
    (scheduleTask task).length ≤ N
      ∧ (∀ r ∈ scheduleTask task, r.title = task.title ∧ r.metadata = task.metadata)
      ∧ (∀ ed, cr.endDate = some ed →
          ∀ r ∈ (scheduleTask task).drop 1, r.scheduledFor ≤ ed) := by
  have hmax : jsOrNat (task.metadata.customRecurrence.bind (·.maxOccurrences)) 10 = N := by
    rw [hcr]
    show jsOrNat cr.maxOccurrences 10 = N
    rw [hN]
    simp only [jsOrNat]
    rw [if_neg (by omega)]
  refine ⟨?_, ?_, ?_⟩
  · unfold scheduleTask
    cases hp : task.recurrencePattern with
    | none => simpa using hpos
    | some p =>
        simp only [List.length_cons]
        unfold scheduleRecurringTasks
        rw [hmax]
        have h := recurrenceLoop_length_le task (getRecurrenceInterval p)
          (List.range' 1 (N - 1))
        rw [List.length_range'] at h
        omega
  · intro r hr
    unfold scheduleTask at hr
    cases hp : task.recurrencePattern with
    | none =>
        rw [hp] at hr
        simp at hr
        subst hr
        exact ⟨rfl, rfl⟩
    | some p =>
        rw [hp] at hr
        rcases List.mem_cons.mp hr with h | h
        · subst h; exact ⟨rfl, rfl⟩
        · obtain ⟨d, hd⟩ := recurrenceLoop_mem_shape task (getRecurrenceInterval p) _ r h
          subst hd
          exact ⟨rfl, rfl⟩
  · intro ed hed r hr
    unfold scheduleTask at hr
    cases hp : task.recurrencePattern with
    | none => rw [hp] at hr; simp at hr
    | some p =>
        rw [hp] at hr
        simp only [List.drop_one, List.tail_cons] at hr
        exact recurrenceLoop_endDate_bound task (getRecurrenceInterval p) cr ed hcr hed _ r hr

/-- A recurring daily task with `maxOccurrences = 3`, for the C6/C7
witnesses. -/
def taskDaily3 : ScheduledTask :=
  { userId := "u1", title := "standup", description := none, taskType := .recurring,
    scheduledFor := 0, recurrencePattern := some .daily, status := .pending,
    metadata := { priority := .medium, category := "work", relatedThreadId := none,
                  reminderKind := none, notificationChannels := [.push],
                  customRecurrence := some { interval := 1, unit := .days,
                                             endDate := none, maxOccurrences := some 3 } } }

/-- C6 witness: the amended bound applied to a concrete daily task with
`maxOccurrences = 3`. -/
theorem scheduleTask_occurrence_bound_witness :
    (scheduleTask taskDaily3).length ≤ 3 :=
  (scheduleTask_occurrence_bound taskDaily3
    { interval := 1, unit := .days, endDate := none, maxOccurrences := some 3 }
    3 rfl rfl (by decide)).1

/-- A custom-pattern task whose caller specifies an interval of 2 hours in
`metadata.customRecurrence`. -/
def taskCustom2h : ScheduledTask :=
  { userId := "u1", title := "water the plants", description := none,
    taskType := .recurring, scheduledFor := 0, recurrencePattern := some .custom,
    status := .pending,
    metadata := { priority := .low, category := "home", relatedThreadId := none,
                  reminderKind := none, notificationChannels := [.push],
                  customRecurrence := some { interval := 2, unit := .hours,
                                             endDate := none, maxOccurrences := some 2 } } }

/-- C7 counterexample: for the custom pattern the sibling is due 24 hours
after the original — `getRecurrenceInterval` has no `custom` case and
falls to the default — not the caller-specified 2 hours. -/
theorem custom_interval_ignored :
    ((scheduleTask taskCustom2h).drop 1).map (fun r => r.scheduledFor) = [86400000]
      ∧ (86400000 : Int) ≠ 2 * 60 * 60 * 1000 := by
  constructor
  · decide
  · decide

/-- C7 (amended: the custom pattern also gets the 24-hour default; the
customRecurrence interval/unit are ignored for spacing): the i-th
generated sibling is due at the original due time plus (i+1) times the
pattern's interval, with daily = 24h, weekly = 7d, monthly = 30d and
custom = 24h (the switch's default branch). -/
theorem sibling_due_times (task : ScheduledTask) (p : RecurrencePattern)
    (hp : task.recurrencePattern = some p) (i : Nat) (r : ScheduledTask)
    (hr : ((scheduleTask task).drop 1)[i]? = some r) :
    r.scheduledFor = task.scheduledFor + getRecurrenceInterval p * (i + 1) := by
  unfold scheduleTask at hr
  rw [hp] at hr
  simp only [List.drop_one, List.tail_cons] at hr
  unfold scheduleRecurringTasks at hr
  have h := recurrenceLoop_due_time task (getRecurrenceInterval p) _ 1 i r hr
  rw [h]
  congr 1
  push_cast
  ring

/-- C7 witness: the first sibling of the concrete daily task is due
exactly 24 hours after the original. -/
theorem sibling_due_times_witness :
    (siblingRow taskDaily3 86400000).scheduledFor
      = taskDaily3.scheduledFor + getRecurrenceInterval .daily * (0 + 1) :=
  sibling_due_times taskDaily3 .daily rfl 0 (siblingRow taskDaily3 86400000) (by decide)

/-- A pending reminder, due at time 0. -/
def pendingReminder : ScheduledTask :=
  { userId := "u1", title := "call the dentist", description := none,
    taskType := .reminder, scheduledFor := 0, recurrencePattern := none,
    status := .pending,
    metadata := { priority := .high, category := "health", relatedThreadId := none,
                  reminderKind := some .task, notificationChannels := [.push],
                  customRecurrence := none } }

/-- C8 counterexample: snoozing `pendingReminder` at t=1000 for 60 minutes
makes it due at t=3601000 with status snoozed; at t=10000000 its due time
has long elapsed, yet the `processDueTasks` sweep — which selects
`status = 'pending'` only — does not select it. -/
theorem snoozed_task_not_swept :
    (snoozeTask pendingReminder 1000 60).scheduledFor ≤ 10000000
      ∧ (snoozeTask pendingReminder 1000 60).status = .snoozed
      ∧ processDueTasksSelection [snoozeTask pendingReminder 1000 60] 10000000 = [] := by
  refine ⟨by decide, rfl, by decide⟩

/-- C8 (amended: the opposite of the claim holds — a snoozed task is never
selected by the sweep): everything `processDueTasksSelection` returns has
status `'pending'` and an elapsed due time, and `snoozeTask` leaves the
task with status `'snoozed'`, which nothing reverts to `'pending'`, so a
snoozed task is excluded from every subsequent sweep. -/
theorem sweep_selects_only_pending (tasks : List ScheduledTask) (nowMs : Int)
    (t : ScheduledTask) (ht : t ∈ processDueTasksSelection tasks nowMs) :
    (t.status = .pending ∧ t.scheduledFor ≤ nowMs)
      ∧ ∀ (task : ScheduledTask) (n m : Int), (snoozeTask task n m).status = .snoozed := by
  refine ⟨?_, fun task n m => rfl⟩
  rw [processDueTasksSelection, mem_stableSortBy, List.mem_filter] at ht
  have h := ht.2
  simp only [Bool.and_eq_true, decide_eq_true_eq] at h
  exact h

/-- C8 witness: the amended selection property at a concrete table
state. -/
theorem sweep_selects_only_pending_witness :
    pendingReminder.status = .pending ∧ pendingReminder.scheduledFor ≤ 5 :=
  (sweep_selects_only_pending [pendingReminder] 5 pendingReminder (by decide)).1

/-! ### Optimizer claims (C1, C3, C5) -/

theorem findCheapestModel_nil (models : List ModelInfo) (req : List Feature)
    (h : models.filter (featureCompatible req) = []) :
    findCheapestModel models req = none := by
  unfold findCheapestModel
  rw [h]

theorem findFastestModel_nil (models : List ModelInfo) (req : List Feature)
    (h : models.filter (featureCompatible req) = []) :
    findFastestModel models req = none := by
  simp [findFastestModel, h]

theorem findHighestQualityModel_nil (models : List ModelInfo) (req : List Feature)
    (h : models.filter (featureCompatible req) = []) :
    findHighestQualityModel models req = none := by
  simp [findHighestQualityModel, h]

theorem findBalancedModel_nil (models : List ModelInfo) (req : List Feature)
    (inputLength : Nat) (h : models.filter (featureCompatible req) = []) :
    findBalancedModel models req inputLength = none := by
  simp only [findBalancedModel, h]
  split
  · exact findCheapestModel_nil [] req rfl
  · split
    · exact findHighestQualityModel_nil [] req rfl
    · simp

theorem selectPrimary_none (strat : OptimizationStrategy) (models : List ModelInfo)
    (req : List Feature) (inputLength : Nat)
    (h : models.filter (featureCompatible req) = []) :
    (selectPrimary strat models req inputLength).1 = none := by
  unfold selectPrimary
  cases strat.strategy
  · exact findCheapestModel_nil models req h
  · exact findFastestModel_nil models req h
  · exact findHighestQualityModel_nil models req h
  · exact findBalancedModel_nil models req inputLength h

/-- The `ModelOptimizer` constructor's example strategy with
`strategy = 'cost'`. -/
def costStrategy : OptimizationStrategy :=
  { strategy := .cost, maxCostPerConversation := none, prioritizeFeatures := [],
    fallbackEnabled := some true }

/-- C1 counterexample: at starter tier with attachments and the trigger
word "analyze" the required features are {vision, reasoning}, no
tier-compatible model satisfies them, and `recommendForInput` returns no
recommendation at all (the JavaScript throws) — it does not fall back to
the first tier-compatible model (gpt-4o-mini, the head of the tier
list), as the claimed soft fallback would. -/
theorem no_soft_fallback_counterexample :
    ((getModelsForTier .starter).filter
        (featureCompatible (requiredFeaturesFor "analyze" true)) = [])
      ∧ recommendForInput .starter costStrategy "analyze" true .medium = none
      ∧ (getModelsForTier .starter).head? = some gpt_4o_mini := by
  refine ⟨by decide, by decide, by decide⟩

/-- C1 (amended: the opposite of the claimed soft fallback holds): for
every input, tier and strategy, when no tier-compatible model satisfies
the required features, `recommendForInput` produces no recommendation —
the cost strategy's `reduce` throws on the empty array, and the other
strategies produce an `undefined` primary that `generateFallbacks`
dereferences — rather than degrading to the first tier-compatible
model. -/
theorem no_compatible_model_yields_none (userTier : Tier) (strat : OptimizationStrategy)
    (inputText : String) (hasAttachments : Bool) (len : OutputLength)
    (h : (getModelsForTier userTier).filter
          (featureCompatible (requiredFeaturesFor inputText hasAttachments)) = []) :
    recommendForInput userTier strat inputText hasAttachments len = none := by
  have hsel := selectPrimary_none strat (getModelsForTier userTier)
    (requiredFeaturesFor inputText hasAttachments) inputText.length h
  simp only [recommendForInput]
  rcases hsp : selectPrimary strat (getModelsForTier userTier)
      (requiredFeaturesFor inputText hasAttachments) inputText.length with ⟨p, rs⟩
  rw [hsp] at hsel
  simp only at hsel
  subst hsel
  rfl

/-- C1 witness: the amended behaviour at the concrete infeasible input. -/
theorem no_compatible_model_yields_none_witness :
    recommendForInput .starter costStrategy "analyze" true .medium = none :=
  no_compatible_model_yields_none .starter costStrategy "analyze" true .medium (by decide)

theorem generateFallbacks_length_le (primary : ModelInfo) (available : List ModelInfo)
    (req : List Feature) : (generateFallbacks primary available req).length ≤ 3 := by
  unfold generateFallbacks
  exact List.length_take_le 3 _

theorem generateFallbacks_ne_primary (primary : ModelInfo) (available : List ModelInfo)
    (req : List Feature) (f : ModelInfo) (hf : f ∈ generateFallbacks primary available req) :
    f.id ≠ primary.id := by
  unfold generateFallbacks at hf
  have h := List.mem_of_mem_take hf
  rw [mem_stableSortBy, List.mem_filter] at h
  have h2 := h.2
  simp only [Bool.and_eq_true, decide_eq_true_eq] at h2
  exact h2.1

/-- C3: whenever `recommendForInput` returns a recommendation, its
fallback list has length at most 3 and never contains the primary model's
identifier. -/
theorem fallbacks_bounded_and_exclusive (userTier : Tier) (strat : OptimizationStrategy)
    (inputText : String) (hasAttachments : Bool) (len : OutputLength)
    (rec : ModelRecommendation)
    (h : recommendForInput userTier strat inputText hasAttachments len = some rec) :
    rec.fallbacks.length ≤ 3 ∧ ∀ f ∈ rec.fallbacks, f.id ≠ rec.primary.id := by
  simp only [recommendForInput] at h
  rcases hsp : selectPrimary strat (getModelsForTier userTier)
      (requiredFeaturesFor inputText hasAttachments) inputText.length with ⟨p?, rs⟩
  rw [hsp] at h
  cases p? with
  | none => simp at h
  | some p =>
      simp only [Option.some_inj] at h
      subst h
      exact ⟨generateFallbacks_length_le p _ _,
             fun f hf => generateFallbacks_ne_primary p _ _ f hf⟩

/-- The recommendation `recommendForInput` computes for a short plain
message at starter tier under the cost strategy. -/
def sampleRecommendation : ModelRecommendation :=
  { primary := gemini_15_flash,
    fallbacks := [gpt_4o_mini, claude_3_haiku, llama_32_90b_vision],
    estimatedCost := 1,
    reasoning := "Gekozen voor kostenefficiëntie" }

/-- C3 witness: the bound applied to a concretely computed
recommendation. -/
theorem fallbacks_bounded_and_exclusive_witness :
    sampleRecommendation.fallbacks.length ≤ 3 :=
  (fallbacks_bounded_and_exclusive .starter costStrategy "hello" false .medium
    sampleRecommendation (by decide)).1

theorem foldl_cheaperOf_mem :
    ∀ (rest : List ModelInfo) (first : ModelInfo),
      rest.foldl cheaperOf first ∈ first :: rest := by
  intro rest
  induction rest with
  | nil => intro first; simp
  | cons c cs ih =>
      intro first
      simp only [List.foldl_cons]
      have hstep : cheaperOf first c = first ∨ cheaperOf first c = c := by
        unfold cheaperOf
        split
        · exact Or.inr rfl
        · exact Or.inl rfl
      rcases List.mem_cons.mp (ih (cheaperOf first c)) with h | h
      · rw [← h] at hstep
        rcases hstep with h2 | h2
        · exact List.mem_cons.mpr (Or.inl h2)
        · exact List.mem_cons.mpr (Or.inr (List.mem_cons.mpr (Or.inl h2)))
      · exact List.mem_cons.mpr (Or.inr (List.mem_cons.mpr (Or.inr h)))

theorem foldl_cheaperOf_min :
    ∀ (rest : List ModelInfo) (first m : ModelInfo), m ∈ first :: rest →
      totalCost (rest.foldl cheaperOf first) ≤ totalCost m := by
  intro rest
  induction rest with
  | nil =>
      intro first m hm
      simp at hm
      subst hm
      simp
  | cons c cs ih =>
      intro first m hm
      simp only [List.foldl_cons]
      have hle1 : totalCost (cheaperOf first c) ≤ totalCost first := by
        unfold cheaperOf
        split
        · omega
        · exact le_refl _
      have hle2 : totalCost (cheaperOf first c) ≤ totalCost c := by
        unfold cheaperOf
        split
        · exact le_refl _
        · omega
      have hhead := ih (cheaperOf first c) (cheaperOf first c) (List.mem_cons_self _ _)
      rcases List.mem_cons.mp hm with h | h
      · subst h
        exact le_trans hhead hle1
      · rcases List.mem_cons.mp h with h2 | h2
        · subst h2
          exact le_trans hhead hle2
        · exact ih (cheaperOf first c) m (List.mem_cons.mpr (Or.inr h2))

/-- Scenario catalog for C5: three tier- and feature-compatible models
with total per-1k costs 0.75, 3.75 and 10.5 cents (milli-cent scaling:
750, 3750, 10500). -/
def scenarioCheapest : ModelInfo :=
  { id := "scenario-a", name := "Scenario A", provider := .openai, category := .chat,
    contextLength := 8192, costPer1kTokens := { input := 250, output := 500 },
    features := [], maxOutputTokens := none, deprecated := false, tier := .starter }

def scenarioMid : ModelInfo :=
  { id := "scenario-b", name := "Scenario B", provider := .anthropic, category := .chat,
    contextLength := 8192, costPer1kTokens := { input := 1250, output := 2500 },
    features := [], maxOutputTokens := none, deprecated := false, tier := .starter }

def scenarioPricey : ModelInfo :=
  { id := "scenario-c", name := "Scenario C", provider := .google, category := .chat,
    contextLength := 8192, costPer1kTokens := { input := 3000, output := 7500 },
    features := [], maxOutputTokens := none, deprecated := false, tier := .starter }

def scenarioModels : List ModelInfo := [scenarioMid, scenarioCheapest, scenarioPricey]

/-- C5: under the cost strategy, whenever `recommendForInput` returns a
recommendation its primary belongs to the tier- and feature-compatible set
and minimizes input+output per-1k cost over that set; and on the
three-model scenario catalog (total costs 0.75, 3.75, 10.5 cents)
`findCheapestModel` selects the 0.75-cost model. -/
theorem cost_strategy_minimizes (userTier : Tier) (strat : OptimizationStrategy)
    (inputText : String) (hasAttachments : Bool) (len : OutputLength)
    (rec : ModelRecommendation) (hstrat : strat.strategy = .cost)
    (h : recommendForInput userTier strat inputText hasAttachments len = some rec) :
    (rec.primary ∈ (getModelsForTier userTier).filter
        (featureCompatible (requiredFeaturesFor inputText hasAttachments))
      ∧ ∀ m ∈ (getModelsForTier userTier).filter
            (featureCompatible (requiredFeaturesFor inputText hasAttachments)),
          totalCost rec.primary ≤ totalCost m)
    ∧ findCheapestModel scenarioModels [] = some scenarioCheapest := by
  refine ⟨?_, by decide⟩
  simp only [recommendForInput, selectPrimary, hstrat] at h
  rcases hf : findCheapestModel (getModelsForTier userTier)
      (requiredFeaturesFor inputText hasAttachments) with _ | p
  · rw [hf] at h
    simp at h
  · rw [hf] at h
    simp only [Option.some_inj] at h
    subst h
    unfold findCheapestModel at hf
    rcases hfil : (getModelsForTier userTier).filter
        (featureCompatible (requiredFeaturesFor inputText hasAttachments)) with _ | ⟨first, rest⟩
    · rw [hfil] at hf
      simp at hf
    · rw [hfil] at hf
      simp only [Option.some_inj] at hf
      subst hf
      exact ⟨foldl_cheaperOf_mem rest first, fun m hm => foldl_cheaperOf_min rest first m hm⟩

/-- C5 witness: the scenario selection, via the theorem applied to the
concretely computed starter-tier cost recommendation. -/
theorem cost_strategy_minimizes_witness :
    findCheapestModel scenarioModels [] = some scenarioCheapest :=
  (cost_strategy_minimizes .starter costStrategy "hello" false .medium
    sampleRecommendation rfl (by decide)).2

end Alqemist
